import Mathlib

/-!
Verification of the client-side session subsystem of the admin-console
front end ("YANTECH-YNP01" repository).

The embedding below translates, function by function:
  - src/unnamed/part_003  (utils/storage.ts): the localStorage adapter;
  - src/utils/sessionManager.ts: session construction, persistence,
    expiry arithmetic and validation;
  - src/contexts/AuthContext.tsx: the login operation and the
    mount-effect / periodic-check ordering of the AuthProvider.

Modelling conventions:
  - Time (Date.now()) is passed explicitly as an Int parameter named now,
    in milliseconds since the epoch.  All JS numbers appearing in this
    subsystem (timestamps, durations, integer ids) are integral and far
    below 2^53, so Int arithmetic is exact.
  - The browser storage is a structure holding an availability flag
    (false models the non-browser / SSR context in which getStorage
    returns null) and a partial map from keys to stored values.
  - A stored value is modelled as a Json tree: JSON.stringify followed by
    JSON.parse is the identity on such trees, so the string layer is
    elided and setStorageItem stores the tree itself.
  - getStorageItem in the source casts the parsed value with "as T" and
    performs no shape check; here the read of the session key decodes the
    tree into an AuthSession and fails closed (returns none) on a tree of
    the wrong shape.  Every value the repository ever writes under the
    session key is produced by saveSession, on whose output the decode is
    total, so the two agree on all reachable stores.
  - The TypeScript interfaces declare AuthSession.user and User.username
    as required, but the runtime objects flowing through JSON.parse and
    object spread are duck typed, and isSessionValid explicitly tests
    "!session.user"; the model therefore makes both fields optional so
    that those runtime tests remain meaningful.
-/

/-- Json value trees, the image of JSON.parse.  Numbers are restricted to
integers, which covers every number this subsystem stores. -/
inductive Json where
  | str : String → Json
  | num : Int → Json
  | bool : Bool → Json
  | null : Json
  | arr : List Json → Json
  | obj : List (String × Json) → Json

/-- Lookup of a field in a parsed JSON object. -/
def lookupField : List (String × Json) → String → Option Json
  | [], _ => none
  | (k, v) :: rest, key => if k = key then some v else lookupField rest key

/-- Projection of a Json tree to a string, as reading a string-typed field
at runtime would yield it. -/
def Json.asString? : Json → Option String
  | Json.str s => some s
  | _ => none

/-- Projection of a Json tree to an integer. -/
def Json.asInt? : Json → Option Int
  | Json.num n => some n
  | _ => none

/-- Identity of a user, which the interface types as string | number
(types file, User.id). -/
inductive UserId where
  | str : String → UserId
  | num : Int → UserId

/-- User record from the types file: username plus optional email, role
and id.  Fields are Option-valued to reflect the duck-typed runtime
objects (see the module comment). -/
structure User where
  username : Option String
  email : Option String
  role : Option String
  id : Option UserId

/-- AuthSession record from the types file: token, user, issuedAt and
expiresAt in ms since the epoch, optional refreshToken. -/
structure AuthSession where
  token : String
  user : Option User
  issuedAt : Int
  expiresAt : Int
  refreshToken : Option String

/-- SessionData record from the types file: the tri-state result of
reading the durable store. -/
structure SessionData where
  session : Option AuthSession
  isValid : Bool
  isExpired : Bool

/-- Encoding of an optional field: JSON.stringify drops a field whose
value is undefined, so a none field contributes nothing to the object. -/
def optField (key : String) : Option Json → List (String × Json)
  | some v => [(key, v)]
  | none => []

/-- Encoding of a UserId as JSON.stringify would serialize it. -/
def UserId.toJson : UserId → Json
  | UserId.str s => Json.str s
  | UserId.num n => Json.num n

/-- Decoding of a UserId field. -/
def UserId.fromJson? : Json → Option UserId
  | Json.str s => some (UserId.str s)
  | Json.num n => some (UserId.num n)
  | _ => none

/-- Encoding of a User as JSON.stringify would serialize it (undefined
fields dropped). -/
def User.toJson (u : User) : Json :=
  Json.obj (optField "username" (u.username.map Json.str) ++
    optField "email" (u.email.map Json.str) ++
    optField "role" (u.role.map Json.str) ++
    optField "id" (u.id.map UserId.toJson))

/-- Decoding of a User from a parsed JSON tree. -/
def User.fromJson? : Json → Option User
  | Json.obj fs =>
      some ⟨(lookupField fs "username").bind Json.asString?,
        (lookupField fs "email").bind Json.asString?,
        (lookupField fs "role").bind Json.asString?,
        (lookupField fs "id").bind UserId.fromJson?⟩
  | _ => none

/-- Encoding of an AuthSession as JSON.stringify serializes the object
literal built in createSession (field order token, user, issuedAt,
expiresAt, refreshToken; undefined optionals dropped). -/
def AuthSession.toJson (s : AuthSession) : Json :=
  Json.obj ([("token", Json.str s.token)] ++
    optField "user" (s.user.map User.toJson) ++
    [("issuedAt", Json.num s.issuedAt), ("expiresAt", Json.num s.expiresAt)] ++
    optField "refreshToken" (s.refreshToken.map Json.str))

/-- Decoding of an AuthSession from a parsed JSON tree; fails closed on a
tree of the wrong shape (see the module comment). -/
def AuthSession.fromJson? : Json → Option AuthSession
  | Json.obj fs =>
      match (lookupField fs "token").bind Json.asString?,
          (lookupField fs "issuedAt").bind Json.asInt?,
          (lookupField fs "expiresAt").bind Json.asInt? with
      | some token, some issuedAt, some expiresAt =>
          some ⟨token, (lookupField fs "user").bind User.fromJson?,
            issuedAt, expiresAt,
            (lookupField fs "refreshToken").bind Json.asString?⟩
      | _, _, _ => none
  | _ => none

/-- Browser storage (utils/storage.ts): avail is false in the non-browser
context where getStorage returns null; items maps keys to the parse trees
of the stored strings. -/
structure Storage where
  avail : Bool
  items : String → Option Json

/-- setStorageItem (utils/storage.ts): serializes and writes, returning
false without writing when the backing store is unreachable. -/
def setStorageItem (key : String) (value : Json) (st : Storage) : Bool × Storage :=
  if st.avail then
    (true, ⟨st.avail, fun k => if k = key then some value else st.items k⟩)
  else
    (false, st)

/-- getStorageItem (utils/storage.ts): reads and parses, returning none
when the store is unreachable or the key absent. -/
def getStorageItem (key : String) (st : Storage) : Option Json :=
  if st.avail then st.items key else none

/-- removeStorageItem (utils/storage.ts). -/
def removeStorageItem (key : String) (st : Storage) : Bool × Storage :=
  if st.avail then
    (true, ⟨st.avail, fun k => if k = key then none else st.items k⟩)
  else
    (false, st)

/-- SESSION_KEY constant (sessionManager.ts line 10). -/
def SESSION_KEY : String := "auth_session"

/-- DEFAULT_SESSION_DURATION constant: 24 hours in milliseconds
(sessionManager.ts line 14). -/
def DEFAULT_SESSION_DURATION : Int := 24 * 60 * 60 * 1000

/-- Duration selection shared by createSession and extendSession: the
source computes "x ? x * 1000 : DEFAULT_SESSION_DURATION", and a provided
0 is falsy in JS, so it selects the default exactly like an omitted
argument. -/
def durationMsOrDefault : Option Int → Int
  | some t => if t = 0 then DEFAULT_SESSION_DURATION else t * 1000
  | none => DEFAULT_SESSION_DURATION

/-- createSession (sessionManager.ts lines 23-41): stamps issuedAt with
the current time and expiresAt with now plus the selected duration.  Pure
construction, no storage argument or result. -/
def createSession (now : Int) (token : String) (user : User)
    (expiresIn : Option Int) (refreshToken : Option String) : AuthSession :=
  ⟨token, some user, now, now + durationMsOrDefault expiresIn, refreshToken⟩

/-- saveSession (sessionManager.ts lines 47-49). -/
def saveSession (s : AuthSession) (st : Storage) : Bool × Storage :=
  setStorageItem SESSION_KEY (AuthSession.toJson s) st

/-- getSession (sessionManager.ts lines 55-57). -/
def getSession (st : Storage) : Option AuthSession :=
  (getStorageItem SESSION_KEY st).bind AuthSession.fromJson?

/-- clearSession (sessionManager.ts lines 62-64). -/
def clearSession (st : Storage) : Bool × Storage :=
  removeStorageItem SESSION_KEY st

/-- isSessionExpired (sessionManager.ts lines 71-73): Date.now() is at or
past expiresAt. -/
def isSessionExpired (now : Int) (s : AuthSession) : Bool :=
  decide (now ≥ s.expiresAt)

/-- isSessionValid (sessionManager.ts lines 80-84): null, an empty (falsy)
token or a missing user fail; otherwise validity is non-expiry. -/
def isSessionValid (now : Int) (s : Option AuthSession) : Bool :=
  match s with
  | none => false
  | some s =>
      if s.token = "" then false
      else match s.user with
        | none => false
        | some _ => ! isSessionExpired now s

/-- getSessionData (sessionManager.ts lines 90-113): loads the session,
auto-clears it from storage when expired, and reports the tri-state
result. -/
def getSessionData (now : Int) (st : Storage) : SessionData × Storage :=
  match getSession st with
  | none => (⟨none, false, false⟩, st)
  | some s =>
      let expired := isSessionExpired now s
      if expired then
        (⟨none, false, true⟩, (clearSession st).2)
      else
        (⟨some s, true, false⟩, st)

/-- withExpiresAt replaces the expiresAt field, modelling the in-place
mutation "session.expiresAt = ..." in extendSession. -/
def withExpiresAt (s : AuthSession) (e : Int) : AuthSession :=
  ⟨s.token, s.user, s.issuedAt, e, s.refreshToken⟩

/-- extendSession (sessionManager.ts lines 119-129): fails on an absent or
expired session without touching storage; otherwise moves expiresAt to
now plus the selected extension and re-persists, returning the save
result. -/
def extendSession (now : Int) (additionalTime : Option Int) (st : Storage) :
    Bool × Storage :=
  match getSession st with
  | none => (false, st)
  | some s =>
      if isSessionExpired now s then (false, st)
      else saveSession (withExpiresAt s (now + durationMsOrDefault additionalTime)) st

/-- mergeUser models the object spread in updateSessionUser:
a field of the partial update wins when present; spreading over a missing
user keeps just the update's fields. -/
def mergeUser (su : Option User) (p : User) : User :=
  match su with
  | none => p
  | some u =>
      ⟨(p.username).elim u.username some,
        (p.email).elim u.email some,
        (p.role).elim u.role some,
        (p.id).elim u.id some⟩

/-- withUser replaces the user field, modelling the in-place mutation
"session.user = ..." in updateSessionUser. -/
def withUser (s : AuthSession) (u : Option User) : AuthSession :=
  ⟨s.token, u, s.issuedAt, s.expiresAt, s.refreshToken⟩

/-- updateSessionUser (sessionManager.ts lines 135-143): fails on an
absent or expired session without touching storage; otherwise shallow-
merges the partial user and re-persists. -/
def updateSessionUser (now : Int) (p : User) (st : Storage) : Bool × Storage :=
  match getSession st with
  | none => (false, st)
  | some s =>
      if isSessionExpired now s then (false, st)
      else saveSession (withUser s (some (mergeUser s.user p))) st

/-- getSessionTimeRemaining (sessionManager.ts lines 149-155): clamped
milliseconds until expiry, 0 when no session loads. -/
def getSessionTimeRemaining (now : Int) (st : Storage) : Int :=
  match getSession st with
  | none => 0
  | some s =>
      let remaining := s.expiresAt - now
      if remaining > 0 then remaining else 0

/-- isSessionExpiringSoon (sessionManager.ts lines 162-166): remaining
time is positive and at most thresholdMinutes minutes. -/
def isSessionExpiringSoon (now : Int) (thresholdMinutes : Int) (st : Storage) : Bool :=
  let remaining := getSessionTimeRemaining now st
  let threshold := thresholdMinutes * 60 * 1000
  decide (remaining > 0) && decide (remaining ≤ threshold)

/-- getSessionToken (sessionManager.ts lines 172-175): the stored token,
with both a missing session and a falsy (empty) token collapsing to null
via "session?.token || null".  Reads only; no storage result. -/
def getSessionToken (st : Storage) : Option String :=
  match getSession st with
  | none => none
  | some s => if s.token = "" then none else some s.token

/-- getSessionUser (sessionManager.ts lines 181-184). -/
def getSessionUser (st : Storage) : Option User :=
  match getSession st with
  | none => none
  | some s => s.user

/-- AuthState: the reactive fields of the AuthProvider
(contexts/AuthContext.tsx lines 43-46). -/
structure AuthState where
  isAuthenticated : Bool
  user : Option User
  session : Option AuthSession
  isSessionExpiring : Bool

/-- initialAuthState: the useState defaults of the provider. -/
def initialAuthState : AuthState := ⟨false, none, none, false⟩

/-- adminUser: the userData object literal built inside a successful login
(AuthContext.tsx lines 102-107). -/
def adminUser : User :=
  ⟨some "admin", some "admin@example.com", some "admin", some (UserId.str "1")⟩

/-- loginToken: the "dummy-token-" + Date.now() token minted by login
(AuthContext.tsx line 111). -/
def loginToken (now : Int) : String :=
  "dummy-token-" ++ toString now

/-- login (AuthContext.tsx lines 98-138): a hardcoded credential check;
on a match it creates a 24-hour session, persists it, and on a successful
write adopts it into state, clears the expiring flag and returns true;
on a failed write, or on any other credential pair, it returns false
leaving state and storage as they were.  The two Date.now() calls of the
source (token minting and createSession) fall in the same logical instant
now. -/
def login (now : Int) (username password : String) (a : AuthState) (st : Storage) :
    Bool × AuthState × Storage :=
  if username = "admin" ∧ password = "admin123" then
    let newSession := createSession now (loginToken now) adminUser (some (24 * 60 * 60)) none
    let saved := saveSession newSession st
    if saved.1 then
      (true, ⟨true, some adminUser, some newSession, false⟩, saved.2)
    else
      (false, a, saved.2)
  else
    (false, a, st)

/-!
Mount-effect / periodic-check ordering of the AuthProvider
(AuthContext.tsx lines 70-93).  The provider's useEffect body runs
initializeSession() and only afterwards registers the 60-second interval,
all inside one event-loop task; the interval callback can only fire,
as its own later task, while the registration is live, and the cleanup
function clears the interval.  The labelled transition system below is
that event-loop behaviour; traces record the observable events in order.
-/

/-- Observable events of the AuthProvider lifecycle: init is the one-shot
initializeSession() call inside the mount effect, and check is a firing
of the setInterval session check. -/
inductive AuthEvent where
  | init
  | check
deriving DecidableEq

/-- ProviderState: whether the periodic-check interval is currently
registered. -/
structure ProviderState where
  intervalActive : Bool

/-- One event-loop task of the AuthProvider: the mount effect (which runs
initializeSession and then registers the interval, atomically, since the
effect body is a single task), an interval firing (possible only while
registered), or the effect cleanup clearing the interval. -/
inductive ProviderStep : ProviderState → List AuthEvent → ProviderState → Prop
  | mountEffect (s : ProviderState) (h : s.intervalActive = false) :
      ProviderStep s [AuthEvent.init] ⟨true⟩
  | tick (s : ProviderState) (h : s.intervalActive = true) :
      ProviderStep s [AuthEvent.check] s
  | cleanup (s : ProviderState) :
      ProviderStep s [] ⟨false⟩

/-- Executions of the provider from its pristine state, collecting the
events each task emits, in order. -/
inductive ProviderTrace : ProviderState → List AuthEvent → Prop
  | nil : ProviderTrace ⟨false⟩ []
  | step {s s' : ProviderState} {tr evs : List AuthEvent} :
      ProviderTrace s tr → ProviderStep s evs s' → ProviderTrace s' (tr ++ evs)

/-- InitBeforeChecks b tr holds when, scanning tr left to right starting
with initialization-already-done flag b, every check event is preceded by
an init event. -/
inductive InitBeforeChecks : Bool → List AuthEvent → Prop
  | nil (b : Bool) : InitBeforeChecks b []
  | consInit (b : Bool) {tr : List AuthEvent} :
      InitBeforeChecks true tr → InitBeforeChecks b (AuthEvent.init :: tr)
  | consCheck {tr : List AuthEvent} :
      InitBeforeChecks true tr → InitBeforeChecks true (AuthEvent.check :: tr)

/-! Helper lemmas shared by the claim theorems. -/

/-- Round trip of the UserId encoding. -/
theorem userId_toJson_fromJson (i : UserId) : UserId.fromJson? (UserId.toJson i) = some i := by
  cases i <;> rfl

/-- Round trip of the User encoding: decoding the serialized form
restores every field, including dropped undefined optionals. -/
theorem user_toJson_fromJson (u : User) : User.fromJson? (User.toJson u) = some u := by
  obtain ⟨un, em, ro, idv⟩ := u
  cases idv with
  | none => cases un <;> cases em <;> cases ro <;> rfl
  | some i => cases i <;> (cases un <;> cases em <;> cases ro <;> rfl)

/-- Round trip of the AuthSession encoding. -/
theorem authSession_toJson_fromJson (s : AuthSession) :
    AuthSession.fromJson? (AuthSession.toJson s) = some s := by
  obtain ⟨tok, user, iat, eat, rt⟩ := s
  cases user with
  | none => cases rt <;> rfl
  | some u =>
      cases rt with
      | none =>
          calc AuthSession.fromJson? (AuthSession.toJson ⟨tok, some u, iat, eat, none⟩)
              = some ⟨tok, User.fromJson? (User.toJson u), iat, eat, none⟩ := rfl
            _ = some ⟨tok, some u, iat, eat, none⟩ := by rw [user_toJson_fromJson]
      | some r =>
          calc AuthSession.fromJson? (AuthSession.toJson ⟨tok, some u, iat, eat, some r⟩)
              = some ⟨tok, User.fromJson? (User.toJson u), iat, eat, some r⟩ := rfl
            _ = some ⟨tok, some u, iat, eat, some r⟩ := by rw [user_toJson_fromJson]

/-- Reading the session key right after saveSession yields the saved
session, when the backing store is reachable. -/
theorem getSession_after_save (s : AuthSession) (st : Storage) (h : st.avail = true) :
    getSession ((saveSession s st).2) = some s := by
  simp [saveSession, setStorageItem, getSession, getStorageItem, h, SESSION_KEY,
    authSession_toJson_fromJson]

/-- A storage reachable from the browser context holds a session only if
the adapter is available. -/
theorem avail_of_getSession_some {st : Storage} {s : AuthSession}
    (h : getSession st = some s) : st.avail = true := by
  cases ha : st.avail with
  | true => rfl
  | false => simp [getSession, getStorageItem, ha] at h

/-- emptyStore: an available browser storage with nothing persisted. -/
def emptyStore : Storage := ⟨true, fun _ => none⟩

/-- baseSession: a concrete session issued at time 0 expiring at time
1000, used as a test fixture. -/
def baseSession : AuthSession := ⟨"tok", some adminUser, 0, 1000, none⟩

/-- baseStore: an available storage holding exactly baseSession. -/
def baseStore : Storage := (saveSession baseSession emptyStore).2

/-- C2 (corrected): createSession stamps issuedAt = now and keeps token,
user and refreshToken; a provided nonzero expiresInSeconds yields
expiresAt = now + expiresInSeconds * 1000, while an omitted OR zero
expiresInSeconds falls back to the 24-hour default (86,400,000 ms),
because 0 is falsy in the source's conditional expression.  The
construction is pure: the function takes no storage and returns none.
The reference input expiresInSeconds = 3600 yields
expiresAt - issuedAt = 3,600,000. -/
theorem createSession_spec (now : Int) (token : String) (user : User)
    (refreshToken : Option String) :
    (∀ e : Int, e ≠ 0 →
      createSession now token user (some e) refreshToken =
        ⟨token, some user, now, now + e * 1000, refreshToken⟩)
    ∧ createSession now token user none refreshToken =
        ⟨token, some user, now, now + 86400000, refreshToken⟩
    ∧ createSession now token user (some 0) refreshToken =
        ⟨token, some user, now, now + 86400000, refreshToken⟩
    ∧ (createSession now "tok-1" user (some 3600) refreshToken).expiresAt -
        (createSession now "tok-1" user (some 3600) refreshToken).issuedAt = 3600000 := by
  refine ⟨fun e he => ?_, ?_, ?_, ?_⟩
  · simp [createSession, durationMsOrDefault, he]
  · simp [createSession, durationMsOrDefault, DEFAULT_SESSION_DURATION]
  · simp [createSession, durationMsOrDefault, DEFAULT_SESSION_DURATION]
  · simp [createSession, durationMsOrDefault]

/-- C2 witness: the general theorem applied at a concrete input. -/
theorem createSession_spec_witness :
    createSession 0 "tok-1" adminUser (some 3600) none =
      ⟨"tok-1", some adminUser, 0, 0 + 3600 * 1000, none⟩ :=
  (createSession_spec 0 "tok-1" adminUser none).1 3600 (by decide)

/-- C2 counterexample: with expiresInSeconds = 0 explicitly provided, the
claimed equality expiresAt = issuedAt + 0 * 1000 fails: the source's
falsy check silently substitutes the 24-hour default. -/
theorem createSession_zero_duration_counterexample :
    ¬ (createSession 0 "tok-1" adminUser (some 0) none).expiresAt =
        (createSession 0 "tok-1" adminUser (some 0) none).issuedAt + 0 * 1000 := by
  decide

/-- C5 (confirmed): isSessionExpired is true exactly when now has reached
expiresAt, and isSessionValid is true exactly when the session is
present, its token is a non-empty string, its user is present, and now is
strictly before expiresAt; validity of null is false. -/
theorem isValid_isExpired_spec (now : Int) (s : AuthSession) :
    (isSessionExpired now s = true ↔ now ≥ s.expiresAt)
    ∧ (isSessionValid now (some s) = true ↔
        s.token ≠ "" ∧ s.user ≠ none ∧ now < s.expiresAt)
    ∧ isSessionValid now none = false := by
  obtain ⟨tok, user, iat, eat, rt⟩ := s
  refine ⟨by simp [isSessionExpired], ?_, rfl⟩
  by_cases ht : tok = ""
  · cases user <;> simp [isSessionValid, ht]
  · cases user with
    | none => simp [isSessionValid, ht]
    | some u =>
        simp [isSessionValid, isSessionExpired, ht]

/-- C5 witness: a concrete unexpired session with token and user is
valid. -/
theorem isValid_isExpired_spec_witness :
    isSessionValid 0 (some baseSession) = true :=
  ((isValid_isExpired_spec 0 baseSession).2.1).mpr
    ⟨by decide, by simp [baseSession], by decide⟩

/-- C8 (confirmed): for a valid session and an available backing store,
saving and then loading returns a session equal in all fields: the
serialize-then-parse trip through the auth_session key is the identity. -/
theorem save_load_roundtrip (now : Int) (s : AuthSession) (st : Storage)
    (_hv : isSessionValid now (some s) = true) (ha : st.avail = true) :
    getSession ((saveSession s st).2) = some s :=
  getSession_after_save s st ha

/-- C8 witness: the round trip evaluated on a concrete valid session. -/
theorem save_load_roundtrip_witness :
    isSessionValid 0 (some baseSession) = true ∧
    getSession ((saveSession baseSession emptyStore).2) = some baseSession :=
  ⟨by decide, save_load_roundtrip 0 baseSession emptyStore (by decide) rfl⟩

/-- C9 (confirmed): with a stored session, isSessionExpiringSoon t is true
exactly when the clamped remaining time max 0 (expiresAt - now) is
positive and at most t minutes; with no stored session it is false.  At
the 5-minute boundary, expiresAt = now + 5min - 1ms is expiring soon and
expiresAt = now + 5min + 1ms is not. -/
theorem isSessionExpiringSoon_spec (now t : Int) (st : Storage) :
    (getSession st = none → isSessionExpiringSoon now t st = false)
    ∧ (∀ s, getSession st = some s →
        (isSessionExpiringSoon now t st = true ↔
          0 < max 0 (s.expiresAt - now) ∧ max 0 (s.expiresAt - now) ≤ t * 60000))
    ∧ (∀ s, getSession st = some s → s.expiresAt = now + 300000 - 1 →
        isSessionExpiringSoon now 5 st = true)
    ∧ (∀ s, getSession st = some s → s.expiresAt = now + 300000 + 1 →
        isSessionExpiringSoon now 5 st = false) := by
  have key : ∀ tm : Int, ∀ s, getSession st = some s →
      (isSessionExpiringSoon now tm st = true ↔
        0 < max 0 (s.expiresAt - now) ∧ max 0 (s.expiresAt - now) ≤ tm * 60000) := by
    intro tm s hs
    simp [isSessionExpiringSoon, getSessionTimeRemaining, hs]
    omega
  refine ⟨fun h => ?_, key t, fun s hs he => ?_, fun s hs he => ?_⟩
  · simp [isSessionExpiringSoon, getSessionTimeRemaining, h]
  · exact (key 5 s hs).mpr (by omega)
  · cases hb : isSessionExpiringSoon now 5 st with
    | false => rfl
    | true => exact absurd ((key 5 s hs).mp hb) (by omega)

/-- C9 witness: the boundary instances evaluated on concrete stores. -/
theorem isSessionExpiringSoon_spec_witness :
    isSessionExpiringSoon 0 5
      ((saveSession ⟨"tok", some adminUser, 0, 299999, none⟩ emptyStore).2) = true
    ∧ isSessionExpiringSoon 0 5
      ((saveSession ⟨"tok", some adminUser, 0, 300001, none⟩ emptyStore).2) = false :=
  ⟨(isSessionExpiringSoon_spec 0 5 _).2.2.1 _
      (getSession_after_save ⟨"tok", some adminUser, 0, 299999, none⟩ emptyStore rfl)
      (by decide),
    (isSessionExpiringSoon_spec 0 5 _).2.2.2 _
      (getSession_after_save ⟨"tok", some adminUser, 0, 300001, none⟩ emptyStore rfl)
      (by decide)⟩

/-- C10 (confirmed): getSessionToken returns the stored non-empty token,
including when the stored session is already expired (its type consumes
the store without producing one: it performs no write), and collapses an
empty stored token to none via the falsy-or. -/
theorem getSessionToken_spec (now : Int) (st : Storage) :
    (∀ s, getSession st = some s → s.token ≠ "" → getSessionToken st = some s.token)
    ∧ (∀ s, getSession st = some s → s.token ≠ "" → now ≥ s.expiresAt →
        getSessionToken st = some s.token)
    ∧ (∀ s, getSession st = some s → s.token = "" → getSessionToken st = none)
    ∧ (getSession st = none → getSessionToken st = none) := by
  refine ⟨fun s hs ht => ?_, fun s hs ht _ => ?_, fun s hs ht => ?_, fun h => ?_⟩
  · simp [getSessionToken, hs, ht]
  · simp [getSessionToken, hs, ht]
  · simp [getSessionToken, hs, ht]
  · simp [getSessionToken, h]

/-- C10 witness: an expired stored session still yields its token. -/
theorem getSessionToken_spec_witness :
    getSessionToken baseStore = some "tok" ∧ (2000 : Int) ≥ baseSession.expiresAt :=
  ⟨(getSessionToken_spec 2000 baseStore).2.1 baseSession
      (getSession_after_save baseSession emptyStore rfl) (by decide) (by decide),
    by decide⟩

/-- C1 (confirmed): getSessionData returns exactly one of three results:
with nothing loadable it reports absent and leaves the store unchanged;
with a stored session at or past expiresAt it deletes the persisted
record (a subsequent load returns null) and reports expired; otherwise it
reports the stored session valid and leaves it persisted. -/
theorem getSessionData_tristate (now : Int) (st : Storage) :
    (getSession st = none → getSessionData now st = (⟨none, false, false⟩, st))
    ∧ (∀ s, getSession st = some s → now ≥ s.expiresAt →
        (getSessionData now st).1 = ⟨none, false, true⟩
        ∧ ((getSessionData now st).2).items SESSION_KEY = none
        ∧ getSession (getSessionData now st).2 = none)
    ∧ (∀ s, getSession st = some s → now < s.expiresAt →
        getSessionData now st = (⟨some s, true, false⟩, st)) := by
  refine ⟨fun h => by simp [getSessionData, h], fun s hs he => ?_, fun s hs he => ?_⟩
  · have ha := avail_of_getSession_some hs
    have hexp : isSessionExpired now s = true := by simp [isSessionExpired]; omega
    have h2 : (getSessionData now st).2 =
        ⟨st.avail, fun k => if k = SESSION_KEY then none else st.items k⟩ := by
      simp [getSessionData, hs, hexp, clearSession, removeStorageItem, ha]
    refine ⟨by simp [getSessionData, hs, hexp], ?_, ?_⟩
    · rw [h2]
      simp
    · rw [h2]
      simp [getSession, getStorageItem, ha, SESSION_KEY]
  · have hexp : isSessionExpired now s = false := by simp [isSessionExpired]; omega
    simp [getSessionData, hs, hexp]

/-- C1 witness: the three branches evaluated on concrete stores. -/
theorem getSessionData_tristate_witness :
    getSessionData 0 emptyStore = (⟨none, false, false⟩, emptyStore)
    ∧ (getSessionData 2000 baseStore).1 = ⟨none, false, true⟩
    ∧ getSession (getSessionData 2000 baseStore).2 = none
    ∧ getSessionData 0 baseStore = (⟨some baseSession, true, false⟩, baseStore) :=
  ⟨(getSessionData_tristate 0 emptyStore).1 rfl,
    ((getSessionData_tristate 2000 baseStore).2.1 baseSession
      (getSession_after_save baseSession emptyStore rfl) (by decide)).1,
    ((getSessionData_tristate 2000 baseStore).2.1 baseSession
      (getSession_after_save baseSession emptyStore rfl) (by decide)).2.2,
    (getSessionData_tristate 0 baseStore).2.2 baseSession
      (getSession_after_save baseSession emptyStore rfl) (by decide)⟩

/-- C3 counterexample: at time 2000 the stored baseSession (expiresAt =
1000) is expired; extendSession observes this, returns false, and leaves
the expired record persisted — a subsequent load still returns it, so an
operation that detected expiry did not delete the record. -/
theorem extendSession_expired_no_cleanup_counterexample :
    isSessionExpired 2000 baseSession = true
    ∧ extendSession 2000 none baseStore = (false, baseStore)
    ∧ getSession (extendSession 2000 none baseStore).2 = some baseSession := by
  refine ⟨rfl, rfl, ?_⟩
  exact getSession_after_save baseSession emptyStore rfl

/-- C3 (amended): expiry detected by getSessionData — the read used by
queryState and by the periodic timer check — deletes the persisted record
at that moment; extendSession and updateSessionUser, on observing an
expired stored session, return false and leave storage exactly as it was,
deferring cleanup to the next read. -/
theorem expiry_cleanup_spec (now : Int) (st : Storage) :
    (∀ s, getSession st = some s → now ≥ s.expiresAt →
      ((getSessionData now st).2).items SESSION_KEY = none
      ∧ getSession (getSessionData now st).2 = none)
    ∧ (∀ s a, getSession st = some s → now ≥ s.expiresAt →
        extendSession now a st = (false, st))
    ∧ (∀ s p, getSession st = some s → now ≥ s.expiresAt →
        updateSessionUser now p st = (false, st)) := by
  refine ⟨fun s hs he => ?_, fun s a hs he => ?_, fun s p hs he => ?_⟩
  · have ha := avail_of_getSession_some hs
    have hexp : isSessionExpired now s = true := by simp [isSessionExpired]; omega
    have h2 : (getSessionData now st).2 =
        ⟨st.avail, fun k => if k = SESSION_KEY then none else st.items k⟩ := by
      simp [getSessionData, hs, hexp, clearSession, removeStorageItem, ha]
    rw [h2]
    constructor
    · simp
    · simp [getSession, getStorageItem, ha, SESSION_KEY]
  · have hexp : isSessionExpired now s = true := by simp [isSessionExpired]; omega
    simp [extendSession, hs, hexp]
  · have hexp : isSessionExpired now s = true := by simp [isSessionExpired]; omega
    simp [updateSessionUser, hs, hexp]

/-- C3 amended witness: the three clauses evaluated on the concrete
expired store. -/
theorem expiry_cleanup_spec_witness :
    getSession (getSessionData 2000 baseStore).2 = none
    ∧ extendSession 2000 (some 60) baseStore = (false, baseStore)
    ∧ updateSessionUser 2000 ⟨some "bob", none, none, none⟩ baseStore =
        (false, baseStore) :=
  ⟨((expiry_cleanup_spec 2000 baseStore).1 baseSession
      (getSession_after_save baseSession emptyStore rfl) (by decide)).2,
    (expiry_cleanup_spec 2000 baseStore).2.1 baseSession (some 60)
      (getSession_after_save baseSession emptyStore rfl) (by decide),
    (expiry_cleanup_spec 2000 baseStore).2.2 baseSession ⟨some "bob", none, none, none⟩
      (getSession_after_save baseSession emptyStore rfl) (by decide)⟩

/-- C4 counterexample: at time 0 the stored baseSession is still live;
extendSession with additionalSeconds = 0 provided does not set expiresAt
to now + 0 * 1000 = 0 as the claim requires for every provided value, but
to the 24-hour default, because 0 is falsy in the source's conditional. -/
theorem extendSession_zero_additional_counterexample :
    (extendSession 0 (some 0) baseStore).1 = true
    ∧ getSession (extendSession 0 (some 0) baseStore).2 =
        some (withExpiresAt baseSession 86400000)
    ∧ ¬ (withExpiresAt baseSession 86400000).expiresAt = 0 + 0 * 1000 := by
  refine ⟨rfl, ?_, by decide⟩
  have h : extendSession 0 (some 0) baseStore =
      saveSession (withExpiresAt baseSession 86400000) baseStore := rfl
  rw [h]
  exact getSession_after_save (withExpiresAt baseSession 86400000) baseStore rfl

/-- C4 (amended): extendSession fails with false and leaves everything
untouched when no session is stored or the stored one is expired; on a
live session it re-persists it with expiresAt = now + additionalSeconds *
1000 for a provided nonzero additionalSeconds, falling back to the
24-hour default when the argument is omitted or 0 (falsy), and returns
exactly what the save returns. -/
theorem extendSession_spec (now : Int) (st : Storage) :
    (getSession st = none → ∀ a, extendSession now a st = (false, st))
    ∧ (∀ s a, getSession st = some s → now ≥ s.expiresAt →
        extendSession now a st = (false, st)
        ∧ getSession (extendSession now a st).2 = some s)
    ∧ (∀ s, getSession st = some s → now < s.expiresAt →
        (∀ e : Int, e ≠ 0 → extendSession now (some e) st =
          saveSession (withExpiresAt s (now + e * 1000)) st)
        ∧ extendSession now none st =
            saveSession (withExpiresAt s (now + 86400000)) st
        ∧ extendSession now (some 0) st =
            saveSession (withExpiresAt s (now + 86400000)) st) := by
  refine ⟨fun h a => by simp [extendSession, h], fun s a hs he => ?_, fun s hs hl => ?_⟩
  · have hexp : isSessionExpired now s = true := by simp [isSessionExpired]; omega
    have h1 : extendSession now a st = (false, st) := by simp [extendSession, hs, hexp]
    exact ⟨h1, by rw [h1]; exact hs⟩
  · have hexp : isSessionExpired now s = false := by simp [isSessionExpired]; omega
    refine ⟨fun e he => ?_, ?_, ?_⟩
    · simp [extendSession, hs, hexp, durationMsOrDefault, he]
    · simp [extendSession, hs, hexp, durationMsOrDefault, DEFAULT_SESSION_DURATION]
    · simp [extendSession, hs, hexp, durationMsOrDefault, DEFAULT_SESSION_DURATION]

/-- C4 amended witness: extending the live baseSession by a nonzero
amount re-persists it with the requested expiry. -/
theorem extendSession_spec_witness :
    extendSession 0 (some 60) baseStore =
      saveSession (withExpiresAt baseSession (0 + 60 * 1000)) baseStore :=
  ((extendSession_spec 0 baseStore).2.2 baseSession
    (getSession_after_save baseSession emptyStore rfl) (by decide)).1 60 (by decide)

/-- loginSession: the session a successful login builds at instant now. -/
def loginSession (now : Int) : AuthSession :=
  createSession now (loginToken now) adminUser (some (24 * 60 * 60)) none

/-- C6 (confirmed): with the reference credentials and an available
backing store, login persists a fresh 24-hour session, adopts the admin
identity and the session into state, resets the expiring flag and returns
true; any other credential pair, or an unavailable store on a write,
returns false and leaves both the controller state and the persisted
record exactly as they were. -/
theorem login_spec (now : Int) (a : AuthState) (st : Storage) :
    (st.avail = true →
      login now "admin" "admin123" a st =
        (true, ⟨true, some adminUser, some (loginSession now), false⟩,
          (saveSession (loginSession now) st).2)
      ∧ getSession (login now "admin" "admin123" a st).2.2 = some (loginSession now)
      ∧ (loginSession now).expiresAt - (loginSession now).issuedAt = 86400000)
    ∧ (∀ u p, ¬ (u = "admin" ∧ p = "admin123") → login now u p a st = (false, a, st))
    ∧ (st.avail = false → login now "admin" "admin123" a st = (false, a, st)) := by
  refine ⟨fun ha => ⟨?_, ?_, ?_⟩, fun u p h => ?_, fun ha => ?_⟩
  · simp [login, loginSession, saveSession, setStorageItem, ha]
  · have h1 : (login now "admin" "admin123" a st).2.2 =
        (saveSession (loginSession now) st).2 := by
      simp [login, loginSession, saveSession, setStorageItem, ha]
    rw [h1]
    exact getSession_after_save (loginSession now) st ha
  · simp [loginSession, createSession, durationMsOrDefault]
  · rw [login, if_neg h]
  · simp [login, loginSession, saveSession, setStorageItem, ha]

/-- C6 witness: the reference scenario, with both a rejected and an
accepted credential pair, at a concrete instant on a concrete store. -/
theorem login_spec_witness :
    login 0 "admin" "wrong" initialAuthState emptyStore =
      (false, initialAuthState, emptyStore)
    ∧ login 0 "admin" "admin123" initialAuthState emptyStore =
        (true, ⟨true, some adminUser, some (loginSession 0), false⟩,
          (saveSession (loginSession 0) emptyStore).2) :=
  ⟨(login_spec 0 initialAuthState emptyStore).2.1 "admin" "wrong" (by decide),
    ((login_spec 0 initialAuthState emptyStore).1 rfl).1⟩

/-- Appending an init event preserves the scan property. -/
theorem initBeforeChecks_snoc_init {b : Bool} {tr : List AuthEvent}
    (h : InitBeforeChecks b tr) :
    InitBeforeChecks b (tr ++ [AuthEvent.init]) := by
  induction h with
  | nil b => exact InitBeforeChecks.consInit b (InitBeforeChecks.nil true)
  | consInit b h ih => exact InitBeforeChecks.consInit b ih
  | consCheck h ih => exact InitBeforeChecks.consCheck ih

/-- Appending a check event preserves the scan property provided an init
already occurred (or the flag was set from the start). -/
theorem initBeforeChecks_snoc_check {b : Bool} {tr : List AuthEvent}
    (h : InitBeforeChecks b tr) (hi : b = true ∨ AuthEvent.init ∈ tr) :
    InitBeforeChecks b (tr ++ [AuthEvent.check]) := by
  induction h with
  | nil b =>
      rcases hi with hb | hmem
      · subst hb
        exact InitBeforeChecks.consCheck (InitBeforeChecks.nil true)
      · simp at hmem
  | consInit b h ih => exact InitBeforeChecks.consInit b (ih (Or.inl rfl))
  | consCheck h ih => exact InitBeforeChecks.consCheck (ih (Or.inl rfl))

/-- Invariant of provider executions: the collected trace satisfies the
scan property, and a live interval registration implies the mount effect
already ran its initializeSession call. -/
theorem providerTrace_invariant {s : ProviderState} {tr : List AuthEvent}
    (h : ProviderTrace s tr) :
    InitBeforeChecks false tr ∧ (s.intervalActive = true → AuthEvent.init ∈ tr) := by
  induction h with
  | nil =>
      refine ⟨InitBeforeChecks.nil false, fun h => ?_⟩
      simp at h
  | step htr hstep ih =>
      cases hstep with
      | mountEffect hact =>
          refine ⟨initBeforeChecks_snoc_init ih.1, fun _ => ?_⟩
          simp
      | tick hact =>
          refine ⟨initBeforeChecks_snoc_check ih.1 (Or.inr (ih.2 hact)), fun h => ?_⟩
          exact List.mem_append_left _ (ih.2 hact)
      | cleanup =>
          refine ⟨by simpa using ih.1, fun h => ?_⟩
          simp at h

/-- A scan-satisfying trace has an init before every check occurrence. -/
theorem initBeforeChecks_decomp {b : Bool} {tr : List AuthEvent}
    (h : InitBeforeChecks b tr) :
    ∀ pre post, tr = pre ++ AuthEvent.check :: post →
      b = true ∨ AuthEvent.init ∈ pre := by
  induction h with
  | nil b =>
      intro pre post hdec
      exact absurd hdec.symm (by simp)
  | consInit b h ih =>
      intro pre post hdec
      cases pre with
      | nil => simp at hdec
      | cons e pre =>
          rw [List.cons_append] at hdec
          have he : e = AuthEvent.init := (List.cons.injEq _ _ _ _ ▸ hdec).1.symm ▸ rfl
          refine Or.inr ?_
          rw [(List.cons.inj hdec).1]
          exact List.mem_cons_self _ _
  | consCheck h ih =>
      intro pre post hdec
      exact Or.inl rfl

/-- C7 (confirmed): in every execution of the AuthProvider, a firing of
the periodic session check is always preceded in the trace by the
completed initializeSession call of the mount effect: the recurring check
never runs in the not-yet-initialized state, because the effect body
performs initialization before registering the interval and interval
callbacks only run while a registration is live. -/
theorem periodic_check_never_precedes_init {s : ProviderState}
    {tr : List AuthEvent} (h : ProviderTrace s tr)
    (pre post : List AuthEvent) (hdec : tr = pre ++ AuthEvent.check :: post) :
    AuthEvent.init ∈ pre := by
  rcases initBeforeChecks_decomp (providerTrace_invariant h).1 pre post hdec with hb | hm
  · exact absurd hb (by simp)
  · exact hm

/-- C7 witness: the two-task execution mount-then-tick, in which the
single check event is indeed preceded by the init event. -/
theorem periodic_check_never_precedes_init_witness :
    AuthEvent.init ∈ [AuthEvent.init] :=
  periodic_check_never_precedes_init
    (ProviderTrace.step
      (ProviderTrace.step ProviderTrace.nil (ProviderStep.mountEffect ⟨false⟩ rfl))
      (ProviderStep.tick ⟨true⟩ rfl))
    [AuthEvent.init] [] rfl
